import Mathlib

/-!
Verification of the core data operations of the `dats_science` personal
expense dashboard (source: `jjjj.py`, a Streamlit app).

The program keeps an append-only CSV ledger (`expenses_storage.csv`) of
expense entries, derives a trailing 7-day window, flags outliers per
numeric series with a quartile-spread rule, and optionally forecasts via
an external model artifact.

Shallow embedding choices:
* Money and numeric series are rationals (`ℚ`): pandas floats carry exact
  decimal inputs in every scenario the claims mention, and the quantile
  arithmetic (quarters) is exact in `ℚ`.
* Calendar dates are integers (days on the timeline); `pd.Timestamp`
  comparison and `pd.Timedelta(days = n)` arithmetic become `Int`
  comparison and subtraction.
* A CSV field is modelled by its parse status (`Cell`): `Cell.date` /
  `Cell.num` are fields that parse as a date / a number, `Cell.txt` is a
  field that parses as neither and that `pd.read_csv` therefore keeps as
  plain object data instead of raising.
* The on-disk file is a `FileContent`: `absent` (no file), `emptyFile`
  (zero bytes, which `pd.read_csv` rejects with `EmptyDataError`), or
  `table rows` (header line plus `rows`).
-/

-- Batteries marks the `Rat` field operations `@[irreducible]`, which blocks
-- kernel evaluation by `decide`/`rfl`; re-open them for concrete computation.
set_option allowUnsafeReducibility true
attribute [semireducible] Rat.mul Rat.add Rat.sub Rat.inv

namespace Dats

/-- The 11 fixed expense categories of the schema (`CATEGORIES` in the
source), in schema order. -/
def CATEGORIES : List String :=
  ["Rent", "Loan_Repayment", "Insurance", "Groceries", "Transport",
   "Eating_Out", "Entertainment", "Utilities", "Healthcare", "Education",
   "Miscellaneous"]

/-- One CSV field of the stored ledger, by parse status: `date`/`num` parse
as a calendar date / a number; `txt` parses as neither, and `pd.read_csv`
keeps such a field as plain (object) data instead of raising. -/
inductive Cell where
  | date (d : Int)
  | num (q : ℚ)
  | txt (s : String)
deriving DecidableEq, Repr

/-- A data row of `expenses_storage.csv`, in the canonical column order
`Fake_date, Income, Age, Dependents, Occupation, City_Tier,
<11 categories>, Total_Expenses, Disposable_Income`. -/
abbrev RawRow := List Cell

/-- On-disk state of the storage file: missing, present but zero bytes
(no header line), or a header line plus data rows. -/
inductive FileContent where
  | absent
  | emptyFile
  | table (rows : List RawRow)
deriving DecidableEq, Repr

/-- The only failure `pd.read_csv` hits on the states above:
`pandas.errors.EmptyDataError` on a zero-byte file. -/
inductive LoadError where
  | emptyData
deriving DecidableEq, Repr

/-- `ensure_storage()` (source lines 53-56): create the file with the
canonical header and no rows when it does not exist; otherwise a no-op. -/
def ensure_storage : FileContent → FileContent
  | FileContent.absent => FileContent.table []
  | fc => fc

/-- `load_storage()` (source lines 58-61): `ensure_storage()` then
`pd.read_csv(STORAGE_FILE, parse_dates = ["Fake_date"])`. `read_csv`
raises only on a zero-byte file; date parsing is lenient, leaving
unparseable fields as object data inside the returned frame. The
`absent` arm is unreachable after `ensure_storage`. -/
def load_storage (fc : FileContent) : Except LoadError (List RawRow) :=
  match ensure_storage fc with
  | FileContent.absent => Except.error LoadError.emptyData
  | FileContent.emptyFile => Except.error LoadError.emptyData
  | FileContent.table rows => Except.ok rows

/-- `save_entry(row)` (source lines 63-66): reload the whole ledger,
`pd.concat` the one new row underneath, and rewrite the file. Any
exception from `load_storage` propagates; no validation is performed. -/
def save_entry (fc : FileContent) (row : RawRow) : Except LoadError FileContent :=
  match load_storage fc with
  | Except.error e => Except.error e
  | Except.ok rows => Except.ok (FileContent.table (rows ++ [row]))

/-- An expense entry as the sidebar submits it: one value per schema
column. `amounts` lists the 11 category amounts in `CATEGORIES` order
(the source's row dict holds them keyed by category name, a category
missing from the dict standing for 0). -/
structure Entry where
  date : Int
  income : ℚ
  age : ℚ
  dependents : ℚ
  occupation : String
  city_tier : String
  amounts : List ℚ
  total_expenses : ℚ
  disposable_income : ℚ
deriving DecidableEq, Repr

/-- `compute_total(row)` (source lines 68-69): `sum(row.get(cat, 0) for
cat in CATEGORIES)`, i.e. the sum of the category amounts. -/
def compute_total (row : Entry) : ℚ := row.amounts.sum

/-- The CSV row the dashboard writes for an entry: its fields in canonical
column order, dates and numbers as such. -/
def entryToRow (e : Entry) : RawRow :=
  [Cell.date e.date, Cell.num e.income, Cell.num e.age, Cell.num e.dependents,
   Cell.txt e.occupation, Cell.txt e.city_tier]
  ++ e.amounts.map Cell.num
  ++ [Cell.num e.total_expenses, Cell.num e.disposable_income]

/-- The data-model invariants of a well-formed submission: derived totals
consistent, monetary fields non-negative, one amount per category. -/
def ValidEntry (e : Entry) : Prop :=
  e.total_expenses = compute_total e
  ∧ e.disposable_income = e.income - e.total_expenses
  ∧ 0 ≤ e.income
  ∧ (∀ a ∈ e.amounts, 0 ≤ a)
  ∧ e.amounts.length = CATEGORIES.length

/-- `get_week_df(df, end_date, days)` (source lines 71-78): empty frame
returned as is; otherwise `end_date` defaults to today's date
(`pd.Timestamp.today().normalize()`, the `today` argument here), `start =
end_date - (days - 1)`, and the rows kept are exactly those with `start ≤
Fake_date ≤ end_date`, in their original order. The source defaults are
`end_date = None`, `days = 7`. -/
def get_week_df (df : List Entry) (today : Int) (end_date : Option Int) (days : Int) :
    List Entry :=
  if df.isEmpty then df
  else
    let e := end_date.getD today
    let start := e - (days - 1)
    df.filter (fun r => decide (start ≤ r.date ∧ r.date ≤ e))

/-- Floor of a non-negative rational as a natural number (the index
arithmetic `numpy` does inside linear interpolation). -/
def ratFloorNat (q : ℚ) : ℕ := q.num.toNat / q.den

/-- `Series.quantile(q)` with the default linear interpolation: sort the
values ascending, take the virtual position `h = (n - 1) * q`, and
interpolate between the neighbouring order statistics. On an empty
series pandas yields NaN; `anomaly_iqr` reaches that case only through
its all-false branch, and this embedding returns 0 there. -/
def quantileLinear (xs : List ℚ) (q : ℚ) : ℚ :=
  let s := List.insertionSort (· ≤ ·) xs
  let n := s.length
  if n = 0 then 0
  else
    let h : ℚ := ((n : ℚ) - 1) * q
    let lo : ℕ := ratFloorNat h
    let frac : ℚ := h - (lo : ℚ)
    let xlo := s.getD lo 0
    let xhi := s.getD (min (lo + 1) (n - 1)) 0
    xlo + frac * (xhi - xlo)

/-- The interquartile range `q3 - q1` as `anomaly_iqr` computes it. -/
def iqrOf (series : List ℚ) : ℚ :=
  quantileLinear series (3/4) - quantileLinear series (1/4)

/-- `anomaly_iqr(series, k)` (source lines 80-88): quartiles by linear
interpolation, `iqr = q3 - q1`; when `iqr == 0` (or NaN, which in this
embedding is the empty series) every flag is `False`; otherwise a value
is flagged iff it is strictly below `q1 - k * iqr` or strictly above
`q3 + k * iqr`. The source default is `k = 1.5`. -/
def anomaly_iqr (series : List ℚ) (k : ℚ) : List Bool :=
  let q1 := quantileLinear series (1/4)
  let q3 := quantileLinear series (3/4)
  let iqr := q3 - q1
  if iqr = 0 ∨ series = [] then series.map (fun _ => false)
  else
    let lower := q1 - k * iqr
    let upper := q3 + k * iqr
    series.map (fun x => decide (x < lower) || decide (x > upper))

/-- Observable on-disk states of `df.to_csv(STORAGE_FILE, index=False)`:
`to_csv` opens the existing path in write mode, which truncates it at
once (zero bytes), then streams the header and the rows front to back.
Position `0` is the truncated file, position `i + 1` has the header and
the first `i` rows; the final state is the complete table. -/
def to_csv_states (rows : List RawRow) : List FileContent :=
  FileContent.emptyFile
    :: (List.range (rows.length + 1)).map (fun i => FileContent.table (rows.take i))

/-- `save_entry` with its write step refined to the on-disk states of
`to_csv_states`: the list of file states an interruption could leave
behind, ending in the fully written file. -/
def save_entry_states (fc : FileContent) (row : RawRow) :
    Except LoadError (List FileContent) :=
  match load_storage fc with
  | Except.error e => Except.error e
  | Except.ok rows => Except.ok (to_csv_states (rows ++ [row]))

/-- Process state reached when the startup block (source lines 24-38)
runs to completion: `model_loaded` records the `joblib.load` outcome
(its `try/except` catches any load failure and reports it via
`st.error`); the ledger file is untouched by startup. -/
structure App where
  model_loaded : Bool
  storage : FileContent
deriving DecidableEq, Repr

/-- Outcome of the `requests.get` call at source line 25, made only when
the artifact file is absent: the call itself may raise (connection
error, DNS failure, timeout), or it returns a response whose status is
200 (body written to `MODEL_PATH`) or not (`st.error` only). -/
inductive FetchOutcome where
  | raises
  | ok200
  | badStatus
deriving DecidableEq, Repr

/-- The uncaught exception that ends the run when the download raises:
`requests.get` at line 25 stands outside any `try/except`. -/
inductive StartupError where
  | requestException
deriving DecidableEq, Repr

/-- Startup block (source lines 24-38). With `aidan.joblib` present the
download is skipped and `model_loaded` records the `joblib.load` outcome
(`load_ok`), load failures being caught. With the artifact absent,
`requests.get` runs outside any `try/except`: if the call raises, the
exception escapes the startup block and the run dies before any ledger
code executes; a non-200 response only logs `st.error`, after which
`joblib.load` on the still-missing file fails and is caught
(`model_loaded = False`); a 200 response writes the artifact and
`model_loaded` records the load outcome. -/
def startup (artifact_present : Bool) (fetch : FetchOutcome) (load_ok : Bool)
    (fc : FileContent) : Except StartupError App :=
  if artifact_present then
    Except.ok ⟨load_ok, fc⟩
  else
    match fetch with
    | FetchOutcome.raises => Except.error StartupError.requestException
    | FetchOutcome.ok200 => Except.ok ⟨load_ok, fc⟩
    | FetchOutcome.badStatus => Except.ok ⟨false, fc⟩

/-- What the forecast feature renders: a per-category prediction vector,
or nothing when the model is unavailable. -/
inductive ForecastOutput where
  | unavailable
  | forecast (vals : List ℚ)
deriving DecidableEq, Repr

/-- Modelled from the spec: the forecast section of the page (it lives in
the UI part of the app, below the helper definitions that are in
`src/`); per the spec, forecasting is gated on the loaded model and
reports unavailable when `model_loaded` is false, and it is the only
feature so gated. -/
def forecast_section (a : App) (pred : List ℚ) : ForecastOutput :=
  if a.model_loaded then ForecastOutput.forecast pred else ForecastOutput.unavailable

/-- The append operation as invoked by the running app: `save_entry`
reads only the storage file, never the model state. -/
def app_save (a : App) (row : RawRow) : Except LoadError FileContent :=
  save_entry a.storage row

/-- The read-all operation as invoked by the running app: `load_storage`
reads only the storage file, never the model state. -/
def app_load (a : App) : Except LoadError (List RawRow) :=
  load_storage a.storage

/-- The window operation as invoked by the running app: `get_week_df` is
a function of the frame and dates alone; the model state plays no part. -/
def app_week (a : App) (df : List Entry) (today : Int) (ed : Option Int) (days : Int) :
    List Entry :=
  get_week_df df today ed days

/-- The anomaly operation as invoked by the running app: `anomaly_iqr` is
a function of the series alone; the model state plays no part. -/
def app_anomaly (a : App) (series : List ℚ) (k : ℚ) : List Bool :=
  anomaly_iqr series k

/-- A well-formed entry used as concrete prior ledger content: category
amounts sum to 620, disposable = 1000 - 620. -/
def goodEntry : Entry :=
  ⟨10, 1000, 25, 2, "Professional", "Tier_2",
   [100, 50, 25, 200, 40, 30, 20, 60, 35, 45, 15], 620, 380⟩

/-- A submission violating both validation rules the spec asks for: a
negative category amount (Rent = -5) and a total (999) that is not the
sum of the category amounts (-5). -/
def badEntry : Entry :=
  ⟨0, 100, 30, 1, "Student", "Tier_1",
   [-5, 0, 0, 0, 0, 0, 0, 0, 0, 0, 0], 999, 0⟩

/-- A stored data row whose date field and amount fields parse neither as
a date nor as numbers: `read_csv` keeps every such field as object data. -/
def corruptRow : RawRow :=
  [Cell.txt "not-a-date", Cell.txt "many", Cell.num 30, Cell.num 1,
   Cell.txt "Student", Cell.txt "Tier_1"]
  ++ List.replicate 11 (Cell.txt "not-a-number")
  ++ [Cell.txt "oops", Cell.num 0]

/-- An entry record carrying only a date, for window examples: all
monetary fields zero. -/
def mkDated (d : Int) : Entry :=
  ⟨d, 0, 0, 0, "", "", List.replicate 11 0, 0, 0⟩

/-- The valid one-entry ledger file used as prior state in the write
examples. -/
def priorFile : FileContent := FileContent.table [entryToRow goodEntry]

theorem entryToRow_inj (e₁ e₂ : Entry) (h : entryToRow e₁ = entryToRow e₂) : e₁ = e₂ := by
  unfold entryToRow at h
  simp only [List.cons_append, List.nil_append, List.cons.injEq, Cell.date.injEq,
    Cell.num.injEq, Cell.txt.injEq] at h
  obtain ⟨hd, hi, ha, hdep, hocc, hct, hrest⟩ := h
  have hlen : (e₁.amounts.map Cell.num).length = (e₂.amounts.map Cell.num).length := by
    have hl := congrArg List.length hrest
    simp only [List.length_append, List.length_map, List.length_cons,
      List.length_nil] at hl
    simpa using hl
  obtain ⟨hmap, htail⟩ := List.append_inj hrest hlen
  have hnum : Function.Injective Cell.num := fun a b hab => by injection hab
  have hamounts : e₁.amounts = e₂.amounts := List.map_injective_iff.mpr hnum hmap
  simp only [List.cons.injEq, Cell.num.injEq, and_true] at htail
  cases e₁
  cases e₂
  simp_all

/-- C1 counterexample: a submission with a negative category amount and a
total inconsistent with the category sum is appended verbatim by
`save_entry` — the stored ledger changes, no `ValidationError` path
exists. -/
theorem save_entry_accepts_invalid_row :
    badEntry.amounts.any (fun a => decide (a < 0)) = true
    ∧ badEntry.total_expenses ≠ compute_total badEntry
    ∧ save_entry (FileContent.table []) (entryToRow badEntry)
        = Except.ok (FileContent.table [entryToRow badEntry])
    ∧ FileContent.table [entryToRow badEntry] ≠ FileContent.table [] := by
  refine ⟨by decide, by decide, rfl, by decide⟩

/-- C1 (amended): `save_entry` validates nothing — whenever the existing
storage loads, it appends the submitted row unconditionally, whether or
not the row's amounts are non-negative or its total matches the category
sum; `compute_total` recomputes the category sum but `save_entry` never
invokes it. -/
theorem save_entry_appends_unconditionally (fc : FileContent) (row : RawRow)
    (rows : List RawRow) (h : load_storage fc = Except.ok rows) :
    save_entry fc row = Except.ok (FileContent.table (rows ++ [row])) := by
  simp [save_entry, h]

/-- Witness for `save_entry_appends_unconditionally` at the invalid
submission `badEntry` over the fresh (header-only) storage file. -/
theorem save_entry_appends_unconditionally_witness :
    save_entry (FileContent.table []) (entryToRow badEntry)
      = Except.ok (FileContent.table ([] ++ [entryToRow badEntry])) :=
  save_entry_appends_unconditionally (FileContent.table []) (entryToRow badEntry) [] rfl

/-- C4 counterexample: a stored row whose date field is not a date and
whose amounts are not numbers is returned as data by `load_storage` — no
`StorageCorruptError` (no such error exists in the program). -/
theorem load_storage_accepts_malformed_cells :
    load_storage (FileContent.table [corruptRow]) = Except.ok [corruptRow]
    ∧ (load_storage (FileContent.table [corruptRow])).isOk = true := by
  exact ⟨rfl, rfl⟩

/-- C4 (amended): `load_storage` never fails on cell contents —
`pd.read_csv` keeps malformed dates and non-numeric amounts as plain
object data and the frame is returned; an absent file is initialized to
the empty ledger; the only read failure is pandas `EmptyDataError` on a
zero-byte file. -/
theorem load_storage_total_on_tables (rows : List RawRow) :
    load_storage (FileContent.table rows) = Except.ok rows
    ∧ load_storage FileContent.absent = Except.ok []
    ∧ load_storage FileContent.emptyFile = Except.error LoadError.emptyData :=
  ⟨rfl, rfl, rfl⟩

/-- C10: appending over any loadable prior state rewrites the file to the
prior rows, unchanged and in their original order, with the new row
after them; a subsequent `load_storage` returns exactly that. -/
theorem save_entry_preserves_prior_entries (fc : FileContent) (rows : List RawRow)
    (row : RawRow) (h : load_storage fc = Except.ok rows) :
    ∃ fc', save_entry fc row = Except.ok fc'
      ∧ load_storage fc' = Except.ok (rows ++ [row]) :=
  ⟨FileContent.table (rows ++ [row]), by simp [save_entry, h], rfl⟩

/-- Witness for `save_entry_preserves_prior_entries`: appending a dated
row over the one-entry ledger keeps the old entry first. -/
theorem save_entry_preserves_prior_entries_witness :
    ∃ fc', save_entry priorFile (entryToRow (mkDated 2)) = Except.ok fc'
      ∧ load_storage fc'
          = Except.ok ([entryToRow goodEntry] ++ [entryToRow (mkDated 2)]) :=
  save_entry_preserves_prior_entries priorFile [entryToRow goodEntry]
    (entryToRow (mkDated 2)) rfl

/-- C7: for a valid entry `e` over any loadable prior state, `save_entry`
succeeds, `load_storage` afterwards returns the prior rows plus the row
of `e`; that row determines `e` in all fields (`entryToRow` is
injective), and the stored totals are consistent: `total_expenses` is
the category sum and `disposable_income` is income minus it. -/
theorem append_load_round_trip (fc : FileContent) (rows : List RawRow) (e : Entry)
    (hload : load_storage fc = Except.ok rows) (hval : ValidEntry e) :
    save_entry fc (entryToRow e) = Except.ok (FileContent.table (rows ++ [entryToRow e]))
    ∧ load_storage (FileContent.table (rows ++ [entryToRow e]))
        = Except.ok (rows ++ [entryToRow e])
    ∧ entryToRow e ∈ rows ++ [entryToRow e]
    ∧ (∀ e' : Entry, entryToRow e' = entryToRow e → e' = e)
    ∧ e.total_expenses = e.amounts.sum
    ∧ e.disposable_income = e.income - e.amounts.sum := by
  obtain ⟨ht, hd, _, _, _⟩ := hval
  refine ⟨by simp [save_entry, hload], rfl, by simp, ?_, ?_, ?_⟩
  · exact fun e' h => entryToRow_inj e' e h
  · exact ht
  · rw [hd, ht]; rfl

/-- Witness for `append_load_round_trip`: the valid entry `goodEntry`
appended to the fresh (header-only) storage file. -/
theorem append_load_round_trip_witness :
    save_entry (FileContent.table []) (entryToRow goodEntry)
      = Except.ok (FileContent.table ([] ++ [entryToRow goodEntry])) :=
  (append_load_round_trip (FileContent.table []) [] goodEntry rfl
    ⟨by decide, by decide, by decide, by decide, by decide⟩).1

theorem to_csv_states_last (rows : List RawRow) :
    (to_csv_states rows).getLast? = some (FileContent.table rows) := by
  unfold to_csv_states
  rw [List.range_succ, List.map_append]
  simp only [List.map_cons, List.map_nil, List.take_length]
  rw [← List.cons_append]
  exact List.getLast?_concat _

/-- C5 counterexample: rewriting the one-entry ledger passes through the
truncated (zero-byte) state, which `load_storage` cannot parse and which
is not the prior valid content; the claim's atomicity fails under
interruption mid-write. -/
theorem save_entry_write_passes_through_unparseable_state :
    save_entry_states priorFile (entryToRow (mkDated 1))
      = Except.ok [FileContent.emptyFile, FileContent.table [],
          FileContent.table [entryToRow goodEntry],
          FileContent.table [entryToRow goodEntry, entryToRow (mkDated 1)]]
    ∧ (load_storage FileContent.emptyFile).isOk = false
    ∧ FileContent.emptyFile ≠ priorFile
    ∧ FileContent.table [] ≠ priorFile := by
  refine ⟨rfl, rfl, by decide, by decide⟩

/-- C5 (amended): `save_entry` rewrites the file in place (truncate, then
write front to back). Run to completion it fully succeeds — the final
on-disk state is the prior rows plus the new row and parses back exactly
— but the write passes through the truncated state, which `load_storage`
cannot parse, so an interruption mid-write can leave the ledger
unparseable: the write-new-then-replace guarantee does not hold. -/
theorem save_entry_inplace_rewrite (fc : FileContent) (row : RawRow)
    (rows : List RawRow) (h : load_storage fc = Except.ok rows) :
    save_entry_states fc row = Except.ok (to_csv_states (rows ++ [row]))
    ∧ (to_csv_states (rows ++ [row])).getLast?
        = some (FileContent.table (rows ++ [row]))
    ∧ FileContent.emptyFile ∈ to_csv_states (rows ++ [row])
    ∧ (load_storage FileContent.emptyFile).isOk = false := by
  exact ⟨by simp [save_entry_states, h], to_csv_states_last (rows ++ [row]),
    by simp [to_csv_states], rfl⟩

/-- Witness for `save_entry_inplace_rewrite`: rewriting the one-entry
ledger with one more row ends in the fully written two-row table. -/
theorem save_entry_inplace_rewrite_witness :
    (to_csv_states ([entryToRow goodEntry] ++ [entryToRow (mkDated 3)])).getLast?
      = some (FileContent.table ([entryToRow goodEntry] ++ [entryToRow (mkDated 3)])) :=
  (save_entry_inplace_rewrite priorFile (entryToRow (mkDated 3))
    [entryToRow goodEntry] rfl).2.1

/-- C9 counterexample: with the artifact missing and the download itself
raising — the unfetchable case the claim quantifies over —
`requests.get` at source line 25 sits outside any `try/except`, so the
startup block fails the whole run: no app state is reached, forecasting
is not "reported as unavailable", and no ledger operation gets to run,
let alone succeed. -/
theorem startup_crashes_when_fetch_raises :
    startup false FetchOutcome.raises true priorFile
      = Except.error StartupError.requestException
    ∧ (startup false FetchOutcome.raises false priorFile).isOk = false :=
  ⟨rfl, rfl⟩

/-- C9 (amended): model unavailability degrades gracefully except when
the missing artifact's download raises. Whenever startup completes with
`model_loaded = False` — the artifact is present but fails to load,
downloads (status 200) but fails to load, or the download returns a
non-200 status — the forecast section reports unavailable while append,
read-all, window and anomaly detection behave exactly as with a loaded
model (none reads the model state). But when the artifact is missing
and the fetch raises, startup fails the run with the uncaught exception
and no ledger operation runs at all. -/
theorem model_degradation_except_fetch_crash (fetch : FetchOutcome)
    (load_ok : Bool) (fc : FileContent) (row : RawRow) (df : List Entry)
    (today : Int) (ed : Option Int) (days : Int) (series : List ℚ) (k : ℚ)
    (pred : List ℚ) :
    startup true fetch false fc = Except.ok ⟨false, fc⟩
    ∧ startup false FetchOutcome.ok200 false fc = Except.ok ⟨false, fc⟩
    ∧ startup false FetchOutcome.badStatus load_ok fc = Except.ok ⟨false, fc⟩
    ∧ forecast_section ⟨false, fc⟩ pred = ForecastOutput.unavailable
    ∧ app_save ⟨false, fc⟩ row = app_save ⟨true, fc⟩ row
    ∧ app_load ⟨false, fc⟩ = app_load ⟨true, fc⟩
    ∧ app_week ⟨false, fc⟩ df today ed days = app_week ⟨true, fc⟩ df today ed days
    ∧ app_anomaly ⟨false, fc⟩ series k = app_anomaly ⟨true, fc⟩ series k
    ∧ startup false FetchOutcome.raises load_ok fc
        = Except.error StartupError.requestException :=
  ⟨rfl, rfl, rfl, rfl, rfl, rfl, rfl, rfl, rfl⟩

/-- C2: with `days = 7` and end date `D`, `get_week_df` keeps exactly the
entries dated in the inclusive range `[D - 6, D]`; omitting `end_date`
uses today's date; and on a ledger dated `D - 10, D - 8, D - 3, D` the
window is exactly the `D - 3` and `D` entries, in order. -/
theorem get_week_df_window_correct (df : List Entry) (today D : Int) :
    get_week_df df today (some D) 7
      = df.filter (fun r => decide (D - 6 ≤ r.date ∧ r.date ≤ D))
    ∧ get_week_df df today none 7 = get_week_df df today (some today) 7
    ∧ get_week_df [mkDated (D - 10), mkDated (D - 8), mkDated (D - 3), mkDated D]
        today (some D) 7 = [mkDated (D - 3), mkDated D] := by
  have key : ∀ l : List Entry, get_week_df l today (some D) 7
      = l.filter (fun r => decide (D - 6 ≤ r.date ∧ r.date ≤ D)) := by
    intro l
    cases l with
    | nil => rfl
    | cons a t =>
      simp only [get_week_df, List.isEmpty_cons, Bool.false_eq_true, if_false]
      norm_num
  refine ⟨key df, rfl, ?_⟩
  rw [key]
  have f1 : decide (D - 6 ≤ (mkDated (D - 10)).date ∧ (mkDated (D - 10)).date ≤ D)
      = false := by
    simp only [mkDated, decide_eq_false_iff_not, not_and, not_le]
    omega
  have f2 : decide (D - 6 ≤ (mkDated (D - 8)).date ∧ (mkDated (D - 8)).date ≤ D)
      = false := by
    simp only [mkDated, decide_eq_false_iff_not, not_and, not_le]
    omega
  have f3 : decide (D - 6 ≤ (mkDated (D - 3)).date ∧ (mkDated (D - 3)).date ≤ D)
      = true := by
    simp only [mkDated, decide_eq_true_eq]
    omega
  have f4 : decide (D - 6 ≤ (mkDated D).date ∧ (mkDated D).date ≤ D)
      = true := by
    simp only [mkDated, decide_eq_true_eq]
    omega
  rw [List.filter_cons, f1, List.filter_cons, f2, List.filter_cons, f3,
    List.filter_cons, f4, List.filter_nil]
  simp

/-- C8: the window of an empty ledger is empty, and when no entry's date
falls inside the effective range the window is the empty list — a value,
not an error (the function is total and has no error outcome). -/
theorem get_week_df_empty_cases (df : List Entry) (today : Int) (ed : Option Int)
    (days : Int)
    (h : ∀ r ∈ df, ¬(ed.getD today - (days - 1) ≤ r.date ∧ r.date ≤ ed.getD today)) :
    get_week_df [] today ed days = [] ∧ get_week_df df today ed days = [] := by
  refine ⟨rfl, ?_⟩
  cases df with
  | nil => rfl
  | cons a t =>
    simp only [get_week_df, List.isEmpty_cons, Bool.false_eq_true, if_false]
    rw [List.filter_eq_nil_iff]
    intro r hr
    simpa using h r hr

/-- Witness for `get_week_df_empty_cases`: an entry dated 100 lies outside
the week ending at day 0. -/
theorem get_week_df_empty_cases_witness :
    get_week_df [] 0 (some 0) 7 = [] ∧ get_week_df [mkDated 100] 0 (some 0) 7 = [] :=
  get_week_df_empty_cases [mkDated 100] 0 (some 0) 7 (by decide)

/-- C6: when the interquartile range is zero or undefined (empty series),
`anomaly_iqr` returns all-false flags of the input's length and raises
no error; in particular the constant series `[5,5,5,5,5]` gets all-false
flags. -/
theorem anomaly_iqr_degenerate_all_false (series : List ℚ) (k : ℚ)
    (h : iqrOf series = 0 ∨ series = []) :
    anomaly_iqr series k = series.map (fun _ => false)
    ∧ (anomaly_iqr series k).length = series.length
    ∧ anomaly_iqr [5, 5, 5, 5, 5] (3/2) = [false, false, false, false, false] := by
  have hcond : quantileLinear series (3/4) - quantileLinear series (1/4) = 0
      ∨ series = [] := by
    simpa [iqrOf] using h
  have hmain : anomaly_iqr series k = series.map (fun _ => false) := by
    simp only [anomaly_iqr]
    rw [if_pos hcond]
  exact ⟨hmain, by rw [hmain, List.length_map], by decide⟩

/-- Witness for `anomaly_iqr_degenerate_all_false` at the constant series
`[5,5,5,5,5]` (zero IQR). -/
theorem anomaly_iqr_degenerate_all_false_witness :
    anomaly_iqr [5, 5, 5, 5, 5] (3/2) = [(5 : ℚ), 5, 5, 5, 5].map (fun _ => false) :=
  (anomaly_iqr_degenerate_all_false [5, 5, 5, 5, 5] (3/2) (Or.inl (by decide))).1

/-- C3 counterexample: on `[5,5,5,5,100]` the quartiles coincide (IQR 0),
so `anomaly_iqr` takes its all-false branch and leaves index 4 (value
100) unflagged even though 100 lies strictly above `Q3 + k * IQR` — the
claimed "flagged exactly when strictly outside the bounds" fails there. -/
theorem anomaly_iqr_misses_outlier_when_iqr_zero :
    quantileLinear [5, 5, 5, 5, 100] (3/4)
        + (3/2) * iqrOf [5, 5, 5, 5, 100] < (100 : ℚ)
    ∧ anomaly_iqr [5, 5, 5, 5, 100] (3/2) = [false, false, false, false, false]
    ∧ (anomaly_iqr [5, 5, 5, 5, 100] (3/2)).getD 4 true = false := by
  refine ⟨by decide, by decide, by decide⟩

/-- C3 (amended): whenever the interquartile range is nonzero, the flags
have the input's length and order and a value is flagged exactly when it
is strictly below `Q1 - k * IQR` or strictly above `Q3 + k * IQR`, with
the quartiles by linear interpolation; on `[10,12,11,13,9,50]` with
`k = 1.5` only index 5 (value 50) is flagged. (When the IQR is zero the
code returns all-false flags instead.) -/
theorem anomaly_iqr_flags_iff_outside_bounds (series : List ℚ) (k : ℚ)
    (h : iqrOf series ≠ 0) :
    (anomaly_iqr series k).length = series.length
    ∧ (∀ i : ℕ, i < series.length →
        ((anomaly_iqr series k).getD i false = true
          ↔ (series.getD i 0 < quantileLinear series (1/4) - k * iqrOf series
             ∨ quantileLinear series (3/4) + k * iqrOf series < series.getD i 0)))
    ∧ anomaly_iqr [10, 12, 11, 13, 9, 50] (3/2)
        = [false, false, false, false, false, true] := by
  have hcond : ¬(quantileLinear series (3/4) - quantileLinear series (1/4) = 0
      ∨ series = []) := by
    intro hc
    rcases hc with hc | hc
    · exact h (by simpa [iqrOf] using hc)
    · exact h (by simp [iqrOf, hc, quantileLinear])
  have hmain : anomaly_iqr series k = series.map (fun x =>
      decide (x < quantileLinear series (1/4)
        - k * (quantileLinear series (3/4) - quantileLinear series (1/4)))
      || decide (x > quantileLinear series (3/4)
        + k * (quantileLinear series (3/4) - quantileLinear series (1/4)))) := by
    simp only [anomaly_iqr]
    rw [if_neg hcond]
  refine ⟨by rw [hmain, List.length_map], ?_, by decide⟩
  intro i hi
  rw [hmain, List.getD_eq_getElem?_getD, List.getElem?_map,
    List.getD_eq_getElem?_getD, List.getElem?_eq_getElem hi]
  simp [iqrOf, Bool.or_eq_true, decide_eq_true_eq, gt_iff_lt]

/-- Witness for `anomaly_iqr_flags_iff_outside_bounds` at the series
`[10,12,11,13,9,50]` with `k = 1.5`: exactly the value 50 is flagged. -/
theorem anomaly_iqr_flags_iff_outside_bounds_witness :
    anomaly_iqr [10, 12, 11, 13, 9, 50] (3/2)
      = [false, false, false, false, false, true] :=
  (anomaly_iqr_flags_iff_outside_bounds [10, 12, 11, 13, 9, 50] (3/2) (by decide)).2.2

end Dats
